import Mathlib

/-!
Verification of the streaming websocket client of AsyncDouyinLiveWebFetcher
(src/websocket.py, class DouyinChatWebSocketClient) against its
natural-language specification.

The client is shallowly embedded: the protobuf wire schemas and gzip are
external collaborators, so inbound bytes are modelled by their decode
outcome, and handler bodies (which parse schema-specific payloads) are
modelled by the properties the specification talks about (whether they
throw, whether they are coroutine functions, and the control handler's
close effect).  All I/O performed by the client is recorded in explicit
action traces so that ordering and counting properties can be stated.
-/

namespace DouyinWS

/-- Outer transport frame (protobuf message PushFrame): the fields the client
reads or writes in websocket.py (log_id, payload_type, payload).  Bytes are
modelled as lists of naturals. -/
structure PushFrame where
  log_id : Nat
  pt : String
  payload : List Nat
deriving DecidableEq

/-- One sub-message of a decoded Response (protobuf message Message):
`method` selects the handler, `payload` is the schema-specific bytes. -/
structure SubMessage where
  method : String
  payload : List Nat
deriving DecidableEq

/-- Inner envelope (protobuf message Response), obtained by gzip-decompressing
a push frame's payload: the fields read in `_handle_binary`
(need_ack, internal_ext, messages_list). -/
structure Response where
  need_ack : Bool
  internal_ext : String
  messages_list : List SubMessage
deriving DecidableEq

/-- Embedding of Python `s.encode("utf-8")`: the UTF-8 bytes of a string. -/
def utf8Encode (s : String) : List Nat :=
  s.toUTF8.toList.map (fun b => b.toNat)

/-- The handler dictionary built in `_handle_binary` (websocket.py lines
93-107), in source order.  Each bound method is represented by the one
property dispatch branches on: whether it is a coroutine function
(`asyncio.iscoroutinefunction`).  In the source only `_parseControlMsg`
(line 232) is declared `async def`; every other `_parse*Msg` handler is a
plain `def`. -/
def handlerTable : List (String × Bool) :=
  [("WebcastChatMessage", false),
   ("WebcastGiftMessage", false),
   ("WebcastLikeMessage", false),
   ("WebcastMemberMessage", false),
   ("WebcastSocialMessage", false),
   ("WebcastRoomUserSeqMessage", false),
   ("WebcastFansclubMessage", false),
   ("WebcastControlMessage", true),
   ("WebcastEmojiChatMessage", false),
   ("WebcastRoomStatsMessage", false),
   ("WebcastRoomMessage", false),
   ("WebcastRoomRankMessage", false),
   ("WebcastRoomStreamAdaptationMessage", false)]

/-- Embedding of `handlers.get(msg.method)` (websocket.py line 109). -/
def handlers (method : String) : Option Bool :=
  handlerTable.lookup method

/-- Why decoding an inbound binary message can fail: `PushFrame().parse`
fails on bytes that do not match the outer schema, `gzip.decompress` fails
on corrupt data, `Response().parse` fails on bytes that do not match the
inner schema (websocket.py lines 82-83; none of these is caught there). -/
inductive DecodeErr where
  | malformedFrame
  | badGzip
  | malformedEnvelope
deriving DecidableEq

/-- Decode outcome of one inbound binary message.  Frame parsing, gzip and
envelope parsing are external collaborators (protobuf / zlib), so the model
takes the outcome as data: either both parses and the decompression succeed,
yielding the frame and its decompressed Response, or one of the three steps
raises. -/
inductive BinDecode where
  | ok (frame : PushFrame) (resp : Response)
  | fails (e : DecodeErr)
deriving DecidableEq

/-- Observable actions of the client, used to state ordering and counting
properties of its traces. -/
inductive Action where
  | sendAck (log_id : Nat) (pt : String) (payload : List Nat)
  | invokeHandler (method : String) (awaited : Bool)
  | logHandlerError (method : String)
  | heartbeatPing (frame : PushFrame)
  | logHeartbeatError
  | logDecodeError (e : DecodeErr)
deriving DecidableEq

/-- Is this action an ack send? -/
def isSendAck : Action → Bool
  | .sendAck _ _ _ => true
  | _ => false

/-- Is this action a handler invocation? -/
def isInvoke : Action → Bool
  | .invokeHandler _ _ => true
  | _ => false

/-- Is this action the `logging.exception` call of the dispatch loop? -/
def isHandlerErrorLog : Action → Bool
  | .logHandlerError _ => true
  | _ => false

/-- Is this action a heartbeat ping? -/
def isHeartbeatPing : Action → Bool
  | .heartbeatPing _ => true
  | _ => false

/-- Does this action's awaited flag agree with the dispatch rule of
websocket.py lines 112-115 (`await handler(...)` exactly when
`asyncio.iscoroutinefunction(handler)`)? -/
def awaitConsistent : Action → Bool
  | .invokeHandler m aw => (handlers m).getD false == aw
  | _ => true

/-- The dispatch loop of `_handle_binary` (websocket.py lines 108-117): for
each sub-message, look up its method in the handler dictionary; a missing
key is skipped; otherwise the handler is invoked (awaited exactly when it is
a coroutine function) inside try/except, and an exception from it is caught
and logged by `logging.exception`.  Whether a given handler invocation
throws depends on its payload-parsing collaborator, so it is taken as the
parameter `beh` (`beh m = true` means the handler call for `m` raises). -/
def dispatchActs (beh : SubMessage → Bool) : List SubMessage → List Action
  | [] => []
  | m :: rest =>
    (match handlers m.method with
     | none => []
     | some isCo =>
       if beh m then
         [Action.invokeHandler m.method isCo, Action.logHandlerError m.method]
       else
         [Action.invokeHandler m.method isCo]) ++ dispatchActs beh rest

/-- Embedding of `_handle_binary` (websocket.py lines 81-117): parse the frame, decompress
and parse the Response (uncaught on failure, modelled by `Except.error`);
if `need_ack`, serialize and send a PushFrame with the inbound frame's
log_id, payload_type "ack" and the UTF-8 bytes of internal_ext, before the
dispatch loop runs; then dispatch every sub-message in order. -/
def handleBinary (beh : SubMessage → Bool) : BinDecode → Except DecodeErr (List Action)
  | .fails e => .error e
  | .ok frame resp =>
    .ok ((if resp.need_ack then
            [Action.sendAck frame.log_id "ack" (utf8Encode resp.internal_ext)]
          else []) ++ dispatchActs beh resp.messages_list)

/-- One inbound websocket message as seen by `_receive_loop` (websocket.py
lines 66-79): binary (with its decode outcome), text, close or error. -/
inductive WsMsg where
  | binaryMsg (d : BinDecode)
  | textMsg
  | closeMsg
  | errorMsg
deriving DecidableEq

/-- Embedding of `_receive_loop` (websocket.py lines 66-79): iterate over inbound
messages; binary messages go to `_handle_binary`, text messages to the
no-op `_handle_text`, a CLOSE or ERROR message breaks the loop.  The
enclosing try catches only `asyncio.CancelledError`, so an exception
raised by `_handle_binary` propagates and terminates the task: the result
is the trace of actions performed plus, if the loop died that way, the
uncaught decode error. -/
def receiveLoop (beh : SubMessage → Bool) : List WsMsg → List Action × Option DecodeErr
  | [] => ([], none)
  | .binaryMsg d :: rest =>
    (match handleBinary beh d with
     | .error e => ([], some e)
     | .ok acts =>
       let (acts', r) := receiveLoop beh rest
       (acts ++ acts', r))
  | .textMsg :: rest => receiveLoop beh rest
  | .closeMsg :: _ => ([], none)
  | .errorMsg :: _ => ([], none)

/-- Modelled from the spec: the receive loop the error-handling section
describes, in which a malformed frame, corrupt gzip data or a malformed
envelope is logged, only that message is dropped, and the loop continues
with the next message.  Used to compare the specified behaviour with
`receiveLoop` above. -/
def receiveLoopSpec (beh : SubMessage → Bool) : List WsMsg → List Action
  | [] => []
  | .binaryMsg d :: rest =>
    (match handleBinary beh d with
     | .error e => [Action.logDecodeError e]
     | .ok acts => acts) ++ receiveLoopSpec beh rest
  | .textMsg :: rest => receiveLoopSpec beh rest
  | .closeMsg :: _ => []
  | .errorMsg :: _ => []

/-- Environment of one iteration of the heartbeat loop: either
`self._ws_session.closed` reports true at the loop check, or the check
passes and the `ping` send succeeds, or the check passes and the send
raises. -/
inductive HbTick where
  | closedTick
  | okTick
  | failTick
deriving DecidableEq

/-- The serialized heartbeat frame `PushFrame(payload=b"hb")` (websocket.py
line 58): all other fields keep their proto3 defaults; 104 and 98 are the
bytes of "hb". -/
def hbFrame : PushFrame := { log_id := 0, pt := "", payload := [104, 98] }

/-- Embedding of `_send_heartbeat` (websocket.py lines 55-64): while the session is not
closed, send a ping and sleep.  The try/except wraps the WHOLE while loop:
`asyncio.CancelledError` ends the task silently, and any other exception is
logged by `logger.exception` — after which the function returns, so the
loop does not resume.  The run is observed over a finite window of tick
environments. -/
def sendHeartbeat : List HbTick → List Action
  | [] => []
  | .closedTick :: _ => []
  | .okTick :: rest => Action.heartbeatPing hbFrame :: sendHeartbeat rest
  | .failTick :: _ => [Action.heartbeatPing hbFrame, Action.logHeartbeatError]

/-- Modelled from the spec: the heartbeat loop the error-handling section
describes, where a failed send is logged and the loop then continues trying
on subsequent ticks while the transport is open (per-tick fault
isolation).  Used to compare the specified behaviour with `sendHeartbeat`
above. -/
def sendHeartbeatSpec : List HbTick → List Action
  | [] => []
  | .closedTick :: _ => []
  | .okTick :: rest => Action.heartbeatPing hbFrame :: sendHeartbeatSpec rest
  | .failTick :: rest =>
    Action.heartbeatPing hbFrame :: Action.logHeartbeatError :: sendHeartbeatSpec rest

/-- Session-level state of one DouyinChatWebSocketClient instance: whether
cancellation has been requested on each of the two tasks created in `new`
(websocket.py lines 46-47), whether the aiohttp websocket session is
closed, and how many transport closing handshakes have been performed. -/
structure SessionState where
  hbCancelRequested : Bool
  rcvCancelRequested : Bool
  wsClosed : Bool
  wsCloseHandshakes : Nat
deriving DecidableEq

/-- State right after `new` returns: both tasks running, transport open. -/
def openState : SessionState :=
  { hbCancelRequested := false, rcvCancelRequested := false,
    wsClosed := false, wsCloseHandshakes := 0 }

/-- The operations `close` performs, in order. -/
inductive CloseStep where
  | cancelTask (name : String)
  | awaitTaskDone (name : String)
  | transportClose
deriving DecidableEq

/-- Is this close step a `task.cancel()` request? -/
def isCancelStep : CloseStep → Bool
  | .cancelTask _ => true
  | _ => false

/-- Is this close step an await of a task's termination (e.g. an
`asyncio.gather` / `asyncio.wait` over self._tasks)? -/
def isAwaitTaskStep : CloseStep → Bool
  | .awaitTaskDone _ => true
  | _ => false

/-- Embedding of `close` (websocket.py lines 50-53): call `task.cancel()` on each task in
`self._tasks` — heartbeat then receive, a cancellation REQUEST — and then
await `self._ws_session.close()`.  aiohttp's
`ClientWebSocketResponse.close` performs the closing handshake only when
the session is not already closed, and returns False (doing no transport
I/O) otherwise; `task.cancel()` on an already-cancelled or finished task is
a no-op.  Returns the new state and the trace of steps performed. -/
def close (s : SessionState) : SessionState × List CloseStep :=
  let steps := [CloseStep.cancelTask "heartbeat", CloseStep.cancelTask "receive"]
  let s1 := { s with hbCancelRequested := true, rcvCancelRequested := true }
  if s1.wsClosed then
    (s1, steps)
  else
    ({ s1 with wsClosed := true, wsCloseHandshakes := s1.wsCloseHandshakes + 1 },
     steps ++ [CloseStep.transportClose])

/-- Embedding of `_parseControlMsg` (websocket.py lines 232-240): parse the payload as a
ControlMessage — the protobuf schema is an external collaborator, abstracted
as the `parse` argument yielding the message's status field — and when the
status equals 3, await `self.close()`; any other status leaves the session
untouched. -/
def parseControlMsg (parse : List Nat → Nat) (s : SessionState) (payload : List Nat) :
    SessionState :=
  if parse payload = 3 then (close s).1 else s

/-- State-level view of the dispatch loop of `_handle_binary` (websocket.py
lines 108-117) with the real handlers: the only handler that changes
session state is `_parseControlMsg` (the only coroutine, method
"WebcastControlMessage"); every other known handler only formats and logs.
Once cancellation of the receive task has been requested (which happens
inside `close`, invoked by the control handler on status 3), the
CancelledError delivered at the next suspension point aborts the loop —
the per-message `except Exception` does not catch it. -/
def runDispatch (parse : List Nat → Nat) (s : SessionState) :
    List SubMessage → SessionState × List Action
  | [] => (s, [])
  | m :: rest =>
    if s.rcvCancelRequested then (s, [])
    else
      match handlers m.method with
      | none => runDispatch parse s rest
      | some isCo =>
        let s' := if m.method = "WebcastControlMessage"
                  then parseControlMsg parse s m.payload else s
        ((runDispatch parse s' rest).1,
         Action.invokeHandler m.method isCo :: (runDispatch parse s' rest).2)

/-- State-level view of `_handle_binary` on a successfully decoded frame:
the ack (when requested) is sent first, then the sub-messages are
dispatched. -/
def runFrame (parse : List Nat → Nat) (s : SessionState) (f : PushFrame) (r : Response) :
    SessionState × List Action :=
  ((runDispatch parse s r.messages_list).1,
   (if r.need_ack then
      [Action.sendAck f.log_id "ack" (utf8Encode r.internal_ext)]
    else []) ++ (runDispatch parse s r.messages_list).2)

/-- State-level view of `_receive_loop` over well-formed frames: the
`async for` yields no further message once the websocket session is closed,
and a receive task whose cancellation has been requested is stopped by
CancelledError at its next suspension point (caught by the loop's only
except clause). -/
def runReceive (parse : List Nat → Nat) (s : SessionState) :
    List (PushFrame × Response) → SessionState × List Action
  | [] => (s, [])
  | (f, r) :: rest =>
    if s.rcvCancelRequested || s.wsClosed then (s, [])
    else
      ((runReceive parse (runFrame parse s f r).1 rest).1,
       (runFrame parse s f r).2 ++ (runReceive parse (runFrame parse s f r).1 rest).2)

/-- The operations of classmethod `new`, in order. -/
inductive NewStep where
  | initTaskList
  | wsConnect
  | spawnTask (name : String)
deriving DecidableEq

/-- Is this step an `asyncio.create_task` call? -/
def isSpawnStep : NewStep → Bool
  | .spawnTask _ => true
  | _ => false

/-- Embedding of classmethod `new` (websocket.py lines 39-48): set `instance._tasks = []`, then await
`session.ws_connect(url, headers=headers)` — which raises on handshake
failure, in which case the exception propagates out of `new` before any
`create_task` line runs and before any websocket connection exists — then
create the heartbeat task and the receive task and return the instance.
The result records the steps performed and whether an instance was
returned or the handshake error escaped. -/
def newClient (handshakeOk : Bool) : List NewStep × Except Unit SessionState :=
  if handshakeOk then
    ([NewStep.initTaskList, NewStep.wsConnect,
      NewStep.spawnTask "heartbeat", NewStep.spawnTask "receive"],
     .ok openState)
  else
    ([NewStep.initTaskList], .error ())

/-! ## Helper lemmas about the dispatch trace -/

/-- Dispatching a concatenation concatenates the traces. -/
theorem dispatchActs_append (beh : SubMessage → Bool) (xs ys : List SubMessage) :
    dispatchActs beh (xs ++ ys) = dispatchActs beh xs ++ dispatchActs beh ys := by
  induction xs with
  | nil => rfl
  | cons m rest ih => simp [dispatchActs, ih]

/-- The dispatch loop never sends an ack. -/
theorem dispatchActs_countP_sendAck (beh : SubMessage → Bool) (ms : List SubMessage) :
    (dispatchActs beh ms).countP isSendAck = 0 := by
  induction ms with
  | nil => rfl
  | cons m rest ih =>
    simp only [dispatchActs, List.countP_append, ih]
    cases h : handlers m.method <;> cases hb : beh m <;> simp [isSendAck]

/-- One handler invocation is recorded per sub-message whose method is in
the handler dictionary. -/
theorem dispatchActs_countP_invoke (beh : SubMessage → Bool) (ms : List SubMessage) :
    (dispatchActs beh ms).countP isInvoke
      = ms.countP (fun m => (handlers m.method).isSome) := by
  induction ms with
  | nil => rfl
  | cons m rest ih =>
    simp only [dispatchActs, List.countP_append, ih, List.countP_cons]
    cases h : handlers m.method <;> cases hb : beh m <;>
      simp [isInvoke, h, Nat.add_comm]

/-- One error is logged per sub-message whose handler runs and raises. -/
theorem dispatchActs_countP_errorLog (beh : SubMessage → Bool) (ms : List SubMessage) :
    (dispatchActs beh ms).countP isHandlerErrorLog
      = ms.countP (fun m => (handlers m.method).isSome && beh m) := by
  induction ms with
  | nil => rfl
  | cons m rest ih =>
    simp only [dispatchActs, List.countP_append, ih, List.countP_cons]
    cases h : handlers m.method <;> cases hb : beh m <;>
      simp [isHandlerErrorLog, h, hb, Nat.add_comm]

/-! ## Claim theorems -/

/-- C1: for every inbound binary frame whose decoded Envelope has
`need_ack = true`, `_handle_binary` sends exactly one ack frame, built with
payload_type "ack", the frame's log_id, and the Envelope's internal_ext
encoded as UTF-8 bytes, and the ack send happens at the head of the trace,
before any handler invocation; the rest of the trace is exactly the
dispatch of the sub-messages, and when `need_ack` is false no ack is
sent. -/
theorem ack_sent_once_before_dispatch (beh : SubMessage → Bool) (f : PushFrame)
    (r : Response) :
    ∃ t, handleBinary beh (BinDecode.ok f r) = Except.ok t
      ∧ t.countP isSendAck = (if r.need_ack then 1 else 0)
      ∧ t.head? = (if r.need_ack
          then some (Action.sendAck f.log_id "ack" (utf8Encode r.internal_ext))
          else (dispatchActs beh r.messages_list).head?)
      ∧ t.drop (if r.need_ack then 1 else 0) = dispatchActs beh r.messages_list := by
  refine ⟨_, rfl, ?_, ?_, ?_⟩ <;>
    cases hna : r.need_ack <;>
      simp [List.countP_append, dispatchActs_countP_sendAck, isSendAck, List.countP_cons]

/-- C3: for every Envelope whose N sub-messages all have handlers and in
which exactly one handler invocation raises, the dispatch loop catches the
exception: all N handlers are still invoked and exactly one error is
logged. -/
theorem handler_fault_isolation (beh : SubMessage → Bool) (ms : List SubMessage)
    (hknown : ∀ m ∈ ms, (handlers m.method).isSome = true)
    (hone : ms.countP beh = 1) :
    (dispatchActs beh ms).countP isInvoke = ms.length ∧
    (dispatchActs beh ms).countP isHandlerErrorLog = 1 := by
  constructor
  · rw [dispatchActs_countP_invoke]
    exact List.countP_eq_length.mpr hknown
  · rw [dispatchActs_countP_errorLog, ← hone]
    apply List.countP_congr
    intro m hm
    simp [hknown m hm]

/-- Witness for C3: a three-message envelope in which only the gift
handler raises. -/
theorem handler_fault_isolation_witness :
    (dispatchActs (fun m => m.method == "WebcastGiftMessage")
        [⟨"WebcastChatMessage", [1]⟩, ⟨"WebcastGiftMessage", [2]⟩,
         ⟨"WebcastLikeMessage", [3]⟩]).countP isInvoke
      = ([⟨"WebcastChatMessage", [1]⟩, ⟨"WebcastGiftMessage", [2]⟩,
          ⟨"WebcastLikeMessage", [3]⟩] : List SubMessage).length ∧
    (dispatchActs (fun m => m.method == "WebcastGiftMessage")
        [⟨"WebcastChatMessage", [1]⟩, ⟨"WebcastGiftMessage", [2]⟩,
         ⟨"WebcastLikeMessage", [3]⟩]).countP isHandlerErrorLog = 1 :=
  handler_fault_isolation (fun m => m.method == "WebcastGiftMessage")
    [⟨"WebcastChatMessage", [1]⟩, ⟨"WebcastGiftMessage", [2]⟩,
     ⟨"WebcastLikeMessage", [3]⟩] (by decide) (by decide)

/-- C9: a sub-message whose method is not a key of the handler dictionary
contributes nothing to the dispatch trace — zero handler invocations, zero
logged errors — and the remaining sub-messages are dispatched exactly as if
it were absent. -/
theorem unknown_method_silent_noop (beh : SubMessage → Bool) (m : SubMessage)
    (pre post : List SubMessage) (h : handlers m.method = none) :
    dispatchActs beh (pre ++ m :: post) = dispatchActs beh (pre ++ post) ∧
    dispatchActs beh [m] = [] := by
  have hm : dispatchActs beh [m] = [] := by simp [dispatchActs, h]
  refine ⟨?_, hm⟩
  have : m :: post = [m] ++ post := rfl
  rw [this, dispatchActs_append, dispatchActs_append, hm, dispatchActs_append]
  simp

/-- Witness for C9: an unknown future method tag between two known ones. -/
theorem unknown_method_silent_noop_witness :
    dispatchActs (fun _ => false)
        ([⟨"WebcastChatMessage", [1]⟩] ++ ⟨"WebcastSomeFutureMessage", [2]⟩ ::
         [⟨"WebcastGiftMessage", [3]⟩])
      = dispatchActs (fun _ => false)
        ([⟨"WebcastChatMessage", [1]⟩] ++ [⟨"WebcastGiftMessage", [3]⟩]) ∧
    dispatchActs (fun _ => false) [⟨"WebcastSomeFutureMessage", [2]⟩] = [] :=
  unknown_method_silent_noop (fun _ => false) ⟨"WebcastSomeFutureMessage", [2]⟩
    [⟨"WebcastChatMessage", [1]⟩] [⟨"WebcastGiftMessage", [3]⟩] (by decide)

/-- C10: the handler dictionary has thirteen method tags, of which exactly
"WebcastControlMessage" maps to a coroutine handler (`_parseControlMsg`,
the only `async def` among the handlers), and every handler invocation in
any dispatch trace is awaited if and only if its handler is a coroutine
function; the sequential dispatch loop runs each handler to completion
before the next sub-message is dispatched. -/
theorem coroutine_dispatch_table (beh : SubMessage → Bool) (ms : List SubMessage) :
    handlerTable.length = 13
    ∧ (handlerTable.all fun p => p.2 == (p.1 == "WebcastControlMessage")) = true
    ∧ (dispatchActs beh ms).all awaitConsistent = true := by
  refine ⟨rfl, by decide, ?_⟩
  induction ms with
  | nil => rfl
  | cons m rest ih =>
    simp only [dispatchActs, List.all_append, ih, Bool.and_true]
    cases h : handlers m.method <;> cases hb : beh m <;>
      simp [awaitConsistent, h, isHandlerErrorLog]

/-- The control method tag is in the handler dictionary, mapped to the one
coroutine handler. -/
theorem handlers_control : handlers "WebcastControlMessage" = some true := by
  decide

/-- A receive task whose cancellation has been requested, or whose websocket
session is closed, consumes no further frames. -/
theorem runReceive_stopped (parse : List Nat → Nat) (s : SessionState)
    (frames : List (PushFrame × Response))
    (h : s.rcvCancelRequested = true ∨ s.wsClosed = true) :
    runReceive parse s frames = (s, []) := by
  cases frames with
  | nil => rfl
  | cons fr rest =>
    obtain ⟨f, r⟩ := fr
    rcases h with h | h <;> simp [runReceive, h]

/-- C2 counterexample: a corrupt (non-gzip) payload terminates the receive
loop with an uncaught error — the subsequent well-formed message is not
consumed and nothing is logged by the client — whereas the receive loop the
spec describes logs the error, drops only that message, and goes on to
dispatch the next message's handler. -/
theorem decode_error_kills_receive_cex :
    receiveLoop (fun _ => false)
        [WsMsg.binaryMsg (BinDecode.fails DecodeErr.badGzip),
         WsMsg.binaryMsg (BinDecode.ok ⟨7, "msg", []⟩
           ⟨false, "", [⟨"WebcastChatMessage", []⟩]⟩)]
      = ([], some DecodeErr.badGzip)
    ∧ receiveLoopSpec (fun _ => false)
        [WsMsg.binaryMsg (BinDecode.fails DecodeErr.badGzip),
         WsMsg.binaryMsg (BinDecode.ok ⟨7, "msg", []⟩
           ⟨false, "", [⟨"WebcastChatMessage", []⟩]⟩)]
      = [Action.logDecodeError DecodeErr.badGzip,
         Action.invokeHandler "WebcastChatMessage" false] := by
  exact ⟨rfl, rfl⟩

/-- C2 amended: an inbound binary message that fails outer-frame parsing,
gzip decompression or envelope parsing raises an exception that the receive
loop does not catch (its only except clause is for cancellation): the
Receive Task terminates at that message with the uncaught error, having
performed no action for it and none for any later message; the client logs
nothing and does not close the transport. -/
theorem decode_error_terminates_receive (beh : SubMessage → Bool) (e : DecodeErr)
    (rest : List WsMsg) :
    receiveLoop beh (WsMsg.binaryMsg (BinDecode.fails e) :: rest) = ([], some e)
    ∧ (receiveLoop beh (WsMsg.binaryMsg (BinDecode.fails e) :: rest)).1.countP
        (fun a => a == Action.logDecodeError e) = 0 := by
  exact ⟨rfl, rfl⟩

/-- C5 counterexample: after one failed ping the heartbeat loop is gone —
the next tick, on which the transport is still open and the send would
succeed, produces no ping — whereas the per-tick isolating loop the spec
describes pings again. -/
theorem heartbeat_failure_stops_loop_cex :
    sendHeartbeat [HbTick.failTick, HbTick.okTick]
      = [Action.heartbeatPing hbFrame, Action.logHeartbeatError]
    ∧ sendHeartbeatSpec [HbTick.failTick, HbTick.okTick]
      = [Action.heartbeatPing hbFrame, Action.logHeartbeatError,
         Action.heartbeatPing hbFrame] := by
  exact ⟨rfl, rfl⟩

/-- C5 amended: a failed heartbeat send is caught and logged (the owning
process does not crash: the task returns normally after `logger.exception`),
but because the try/except wraps the whole while loop, the failure
terminates the heartbeat loop regardless of the transport's state — no
further ticks are attempted; the loop also exits silently when the session
reports itself closed, and otherwise keeps pinging. -/
theorem heartbeat_failure_logged_then_exit (rest : List HbTick) :
    sendHeartbeat (HbTick.failTick :: rest)
      = [Action.heartbeatPing hbFrame, Action.logHeartbeatError]
    ∧ (sendHeartbeat (HbTick.failTick :: rest)).countP isHeartbeatPing = 1
    ∧ sendHeartbeat (HbTick.closedTick :: rest) = []
    ∧ sendHeartbeat (HbTick.okTick :: rest)
        = Action.heartbeatPing hbFrame :: sendHeartbeat rest := by
  exact ⟨rfl, rfl, rfl, rfl⟩

/-- C4 counterexample: on an open session, `close` performs exactly a
cancellation request per task followed by the transport close — it contains
no step awaiting either task's termination, so it does not block until the
tasks have observed cancellation. -/
theorem close_no_await_cex :
    (close openState).2
      = [CloseStep.cancelTask "heartbeat", CloseStep.cancelTask "receive",
         CloseStep.transportClose]
    ∧ (close openState).2.countP isAwaitTaskStep = 0 := by
  exact ⟨rfl, rfl⟩

/-- C4 amended: `close` requests cooperative cancellation of both background
tasks and then closes the transport, but it returns without awaiting task
termination — its trace contains two cancellation requests, a transport
close when the session was still open, and no await of either task. -/
theorem close_requests_cancellation_only (s : SessionState) :
    (close s).2.countP isCancelStep = 2
    ∧ (close s).2.countP isAwaitTaskStep = 0
    ∧ (close s).1.hbCancelRequested = true
    ∧ (close s).1.rcvCancelRequested = true
    ∧ (close s).1.wsClosed = true
    ∧ (s.wsClosed = false → CloseStep.transportClose ∈ (close s).2) := by
  obtain ⟨hb, rcv, wc, n⟩ := s
  cases wc <;>
    simp [close, List.countP_cons, isCancelStep, isAwaitTaskStep]

/-- Witness for C4 amended: closing the freshly opened session does close
the transport. -/
theorem close_requests_cancellation_only_witness :
    CloseStep.transportClose ∈ (close openState).2 :=
  (close_requests_cancellation_only openState).2.2.2.2.2 rfl

/-- C8: `close` is idempotent — a second call leaves the session state
unchanged, performs only the two (no-op) cancellation requests and no
second transport closing handshake, and produces no error (the embedded
operation is total); a single close of an open session performs exactly one
closing handshake. -/
theorem close_idempotent (s : SessionState) :
    close (close s).1
      = ((close s).1,
         [CloseStep.cancelTask "heartbeat", CloseStep.cancelTask "receive"])
    ∧ (close (close s).1).1.wsCloseHandshakes = (close s).1.wsCloseHandshakes
    ∧ (close openState).1.wsCloseHandshakes = 1 := by
  obtain ⟨hb, rcv, wc, n⟩ := s
  cases wc <;> simp [close, openState]

/-- C6: an Envelope whose sub-message list is a single
"WebcastControlMessage" whose parsed status is 3 makes the control handler
invoke `close`: the resulting session state has both tasks
cancel-requested, the transport closed by one handshake, and the receive
loop dispatches nothing from any subsequent frame (its run over the stream
equals its run over that first frame alone); any other status value leaves
the session state untouched. -/
theorem control_status_three_closes (parse : List Nat → Nat) (pl : List Nat)
    (f : PushFrame) (na : Bool) (ie : String)
    (rest : List (PushFrame × Response)) :
    (parse pl = 3 →
      (runFrame parse openState f ⟨na, ie, [⟨"WebcastControlMessage", pl⟩]⟩).1
        = { hbCancelRequested := true, rcvCancelRequested := true,
            wsClosed := true, wsCloseHandshakes := 1 }
      ∧ runReceive parse openState
          ((f, ⟨na, ie, [⟨"WebcastControlMessage", pl⟩]⟩) :: rest)
        = runFrame parse openState f ⟨na, ie, [⟨"WebcastControlMessage", pl⟩]⟩)
    ∧ (parse pl ≠ 3 →
      (runFrame parse openState f ⟨na, ie, [⟨"WebcastControlMessage", pl⟩]⟩).1
        = openState) := by
  constructor
  · intro hp
    have hframe :
        (runFrame parse openState f ⟨na, ie, [⟨"WebcastControlMessage", pl⟩]⟩).1
          = { hbCancelRequested := true, rcvCancelRequested := true,
              wsClosed := true, wsCloseHandshakes := 1 } := by
      simp [runFrame, runDispatch, parseControlMsg, hp, close, openState,
        handlers_control]
    refine ⟨hframe, ?_⟩
    have hguard : (openState.rcvCancelRequested || openState.wsClosed) = false := rfl
    have hstop :
        runReceive parse
            (runFrame parse openState f
              ⟨na, ie, [⟨"WebcastControlMessage", pl⟩]⟩).1 rest
          = ((runFrame parse openState f
              ⟨na, ie, [⟨"WebcastControlMessage", pl⟩]⟩).1, []) :=
      runReceive_stopped parse _ rest (Or.inl (by rw [hframe]))
    simp [runReceive, hguard, hstop]
  · intro hp
    simp [runFrame, runDispatch, parseControlMsg, hp, openState, handlers_control]

/-- Witness for C6: with a status parser returning 3, the session ends up
closed, and with one returning 0 it stays open. -/
theorem control_status_three_closes_witness :
    ((runFrame (fun _ => 3) openState ⟨1, "msg", []⟩
        ⟨false, "", [⟨"WebcastControlMessage", [9]⟩]⟩).1
      = { hbCancelRequested := true, rcvCancelRequested := true,
          wsClosed := true, wsCloseHandshakes := 1 })
    ∧ ((runFrame (fun _ => 0) openState ⟨1, "msg", []⟩
        ⟨false, "", [⟨"WebcastControlMessage", [9]⟩]⟩).1 = openState) :=
  ⟨((control_status_three_closes (fun _ => 3) [9] ⟨1, "msg", []⟩ false "" []).1
      rfl).1,
   (control_status_three_closes (fun _ => 0) [9] ⟨1, "msg", []⟩ false "" []).2
      (by decide)⟩

/-- C7: when the transport handshake fails, `new` propagates the connection
error: no instance is returned, the task list set up before the handshake
gains no entries (zero spawn steps — the two `create_task` lines come after
the `ws_connect` await), and no websocket connection was established that
could leak; on a successful handshake both tasks are spawned. -/
theorem connect_failure_no_tasks :
    newClient false = ([NewStep.initTaskList], Except.error ())
    ∧ (newClient false).1.countP isSpawnStep = 0
    ∧ NewStep.wsConnect ∉ (newClient false).1
    ∧ (newClient true).1.countP isSpawnStep = 2 := by
  refine ⟨rfl, rfl, by decide, rfl⟩

end DouyinWS
